import Mathlib

/-!
Formal model of the face-tracked dynamic cropping engine of video2reel.

The definitions below are shallow embeddings of the Python sources:
* `TrackerState`, `get_face_center`   — track_n_merge.py lines 11-44
  (equivalently face_tracker.py lines 8-66); the external face detector is
  abstracted as an `Option (ℤ × ℤ)` raw pixel center per frame, which is the
  value the code computes on lines 26-30 from the detector's relative box.
* `cropDims`, `calculate_crop_region` — track_n_merge.py lines 46-60
  (equivalently face_tracker.py lines 68-103).  Python float arithmetic on
  `aspect = 9/16` is modelled exactly over ℚ/ℤ: `9/16` is a dyadic rational
  represented exactly in binary floating point, `w / h < 9/16` is `16*w < 9*h`,
  `int(w / aspect)` is `⌊16*w/9⌋` and `int(h * aspect)` is `⌊9*h/16⌋`, which
  agree with the double-precision evaluation for all realistic frame sizes.
* `process_video_tracker`             — the tracker-state flow of
  track_n_merge.py process_video lines 84-124: the first frame is read to fix
  output dimensions (one `get_face_center` call), the capture is rewound, and
  the main loop feeds every frame (the first one again included) through
  `get_face_center`.
* `runLoopTnM`, `runLoopFT`           — the handle-release discipline of the
  frame loops: track_n_merge.py lines 104-126 (no try/finally) and
  face_tracker.py lines 158-220 (try/except/finally).
* `muxStep`                           — the ffmpeg mux stage of
  track_n_merge.py lines 130-156: one subprocess invocation writing directly
  to the final output path, a CalledProcessError handler printing the
  diagnostic stderr and returning False, and a finally block deleting the
  temporary silent video.
-/

namespace Video2Reel

/-- Python `int()` applied to a rational value: truncation toward zero,
which on the reduced numerator/denominator is integer T-division. -/
def pyInt (q : ℚ) : ℤ := q.num.tdiv (q.den : ℤ)

/-- The mutable tracking state of `FaceTrackingCropper.__init__`
(track_n_merge.py lines 17-19): the configured smoothing factor and the last
smoothed center, `None` before any detection. -/
structure TrackerState where
  smoothing_factor : ℚ
  last_center_x : Option ℤ
  last_center_y : Option ℤ
  deriving DecidableEq, Repr

/-- Embedding of `FaceTrackingCropper.get_face_center`
(track_n_merge.py lines 21-44).
`det` is the detector boundary: the raw pixel center `(cx, cy)` computed on
lines 26-30 when `results.detections` is nonempty, `none` otherwise.
Returns the reported center together with the updated state. -/
def get_face_center (st : TrackerState) (w h : ℕ) (det : Option (ℤ × ℤ)) :
    (ℤ × ℤ) × TrackerState :=
  match det with
  | some (rx, ry) =>
    match st.last_center_x, st.last_center_y with
    | some lx, some ly =>
      let cx := pyInt (st.smoothing_factor * lx + (1 - st.smoothing_factor) * rx)
      let cy := pyInt (st.smoothing_factor * ly + (1 - st.smoothing_factor) * ry)
      ((cx, cy), { st with last_center_x := some cx, last_center_y := some cy })
    | _, _ =>
      ((rx, ry), { st with last_center_x := some rx, last_center_y := some ry })
  | none =>
    match st.last_center_x, st.last_center_y with
    | some lx, some ly => ((lx, ly), st)
    | _, _ => (((w : ℤ) / 2, (h : ℤ) / 2), st)

/-- The crop dimensions chosen by `calculate_crop_region`
(track_n_merge.py lines 49-56): aspect `9/16`; if `w/h < 9/16` the width binds
(`cw = w`, `ch = int(w / (9/16))`), else the height binds
(`ch = h`, `cw = int(h * 9/16)`). -/
def cropDims (w h : ℕ) : ℕ × ℕ :=
  if 16 * w < 9 * h then (w, 16 * w / 9) else (9 * h / 16, h)

/-- Embedding of `FaceTrackingCropper.calculate_crop_region`
(track_n_merge.py lines 46-60):
center the `cropDims` rectangle on the face center, clamped into the frame. -/
def calculate_crop_region (w h : ℕ) (c : ℤ × ℤ) : ℤ × ℤ × ℤ × ℤ :=
  let cw := (cropDims w h).1
  let ch := (cropDims w h).2
  let x1 := max 0 (min ((w : ℤ) - cw) (c.1 - (cw : ℤ) / 2))
  let y1 := max 0 (min ((h : ℤ) - ch) (c.2 - (ch : ℤ) / 2))
  (x1, y1, x1 + cw, y1 + ch)

/-- A source video as seen by the tracking logic: fixed frame dimensions and
the per-frame detector output. -/
structure Video where
  width : ℕ
  height : ℕ
  dets : List (Option (ℤ × ℤ))
  deriving DecidableEq, Repr

/-- The state evolution of the main frame loop
(track_n_merge.py lines 104-124): every read frame goes through
`get_face_center`. -/
def processFramesState (st : TrackerState) (w h : ℕ)
    (dets : List (Option (ℤ × ℤ))) : TrackerState :=
  dets.foldl (fun s d => (get_face_center s w h d).2) st

/-- The tracker-state effect of one `process_video` call
(track_n_merge.py lines 84-124): read the first frame and call
`get_face_center` on it to fix the output dimensions, rewind to frame 0, then
run the main loop over all frames.  If the first read fails the call returns
early and the state is untouched.  Nothing in `process_video` (or in
`__init__`'s caller in main.py lines 101-106, which constructs a single
cropper for the whole batch) resets `last_center_x` / `last_center_y` between
videos. -/
def process_video_tracker (st : TrackerState) (v : Video) : TrackerState :=
  match v.dets with
  | [] => st
  | d0 :: _ =>
    let st1 := (get_face_center st v.width v.height d0).2
    processFramesState st1 v.width v.height v.dets

/-- One iteration of the frame loop, as far as control flow is concerned:
either the frame is read and processed normally (`ok`), or an exception is
raised while processing it (`raise`) — e.g. by the detector backend or the
writer.  The end of the event list is the `not ret` end-of-stream break. -/
inductive FrameEvent
  | ok
  | raise
  deriving DecidableEq, Repr

/-- What a run of the frame loop leaves behind: whether `cap.release()` and
`out.release()` ran before control left the function, and whether an
exception propagated out of it. -/
structure LoopExit where
  capReleased : Bool
  outReleased : Bool
  exnPropagated : Bool
  deriving DecidableEq, Repr

/-- The frame loop of track_n_merge.py `process_video` (lines 104-126): no
try/finally.  On end of stream the loop breaks and lines 125-126 release both
handles; an exception raised inside the loop body propagates out of
`process_video` before either `release()` line is reached. -/
def runLoopTnM : List FrameEvent → LoopExit
  | [] => ⟨true, true, false⟩
  | .ok :: rest => runLoopTnM rest
  | .raise :: _ => ⟨false, false, true⟩

/-- The frame loop of face_tracker.py `process_video` (lines 158-220): the
loop body sits in a `try` whose `except KeyboardInterrupt` / `except
Exception` handlers return `False` and whose `finally` (lines 216-218)
releases both handles on every exit path. -/
def runLoopFT : List FrameEvent → LoopExit
  | [] => ⟨true, true, false⟩
  | .ok :: rest => runLoopFT rest
  | .raise :: _ => ⟨true, true, false⟩

/-- The final output path after the mux stage: no file, a partially written
file abandoned mid-transcode, or a complete muxed file. -/
inductive OutState
  | absent
  | truncated
  | complete
  deriving DecidableEq, Repr

/-- Outcome of the single external `ffmpeg` invocation.  `ffmpeg` is handed
the final output path directly (track_n_merge.py line 140), so on a nonzero
exit it may or may not have already created/partially written that file
(`wroteOutput`); `stderr` is its captured diagnostic output. -/
inductive MuxOutcome
  | success
  | failed (stderr : String) (wroteOutput : Bool)
  deriving DecidableEq, Repr

/-- Observable result of the mux stage of `process_video`. -/
structure MuxResult where
  tempExists : Bool
  output : OutState
  returnedTrue : Bool
  printed : List String
  transcoderCalls : ℕ
  deriving DecidableEq, Repr

/-- The mux stage of track_n_merge.py `process_video` (lines 130-156), run
from the state in which the intermediate silent video exists at the temp path
and nothing exists yet at the output path.  `subprocess.run(..., check=True)`
raises `CalledProcessError` on nonzero exit; the handler (lines 146-149)
prints the error and its stderr and returns `False`; the `finally`
(lines 150-153) deletes the temp file in both cases; on success line 156
returns `True`.  The transcoder is invoked exactly once — there is no retry
loop. -/
def muxStep (o : MuxOutcome) : MuxResult :=
  match o with
  | .success =>
    { tempExists := false
      output := .complete
      returnedTrue := true
      printed := ["Audio merged successfully", "Final output written"]
      transcoderCalls := 1 }
  | .failed stderr wroteOutput =>
    { tempExists := false
      output := if wroteOutput then .truncated else .absent
      returnedTrue := false
      printed := ["FFmpeg error", "stderr: " ++ stderr]
      transcoderCalls := 1 }

/-- The C5 scenario: a tracker whose state already holds center `(0, 0)` with
`smoothing_factor = 0.8` is fed the constant raw detection `(100, 100)` on
every frame.  `smoothState n` is the state after `n` frames. -/
def smoothState : ℕ → TrackerState
  | 0 => ⟨4/5, some 0, some 0⟩
  | n + 1 => (get_face_center (smoothState n) 640 480 (some (100, 100))).2

/-- The smoothed center `get_face_center` reports on frame `n` (0-based) of
the C5 scenario. -/
def smoothOut (n : ℕ) : ℤ × ℤ :=
  (get_face_center (smoothState n) 640 480 (some (100, 100))).1

/-- The integer recurrence realized by the blend
`int(0.8 · prev + 0.2 · 100)` starting from 0: each smoothed coordinate of
the C5 scenario. -/
def gSeq : ℕ → ℤ
  | 0 => 0
  | n + 1 => (4 * gSeq n + 100) / 5

/-- The crop-rectangle property the spec asserts for `calculate_crop_region`
on a `w × h` frame: integer bounds `0 ≤ x1 < x2 ≤ w` and `0 ≤ y1 < y2 ≤ h`,
and a width/height ratio equal to 9/16 up to strictly less than one pixel of
rounding on each axis. -/
def CropRectSpec (w h : ℕ) (c : ℤ × ℤ) : Prop :=
  0 ≤ (calculate_crop_region w h c).1 ∧
  (calculate_crop_region w h c).1 < (calculate_crop_region w h c).2.2.1 ∧
  (calculate_crop_region w h c).2.2.1 ≤ (w : ℤ) ∧
  0 ≤ (calculate_crop_region w h c).2.1 ∧
  (calculate_crop_region w h c).2.1 < (calculate_crop_region w h c).2.2.2 ∧
  (calculate_crop_region w h c).2.2.2 ≤ (h : ℤ) ∧
  ∃ qw qh : ℚ, 0 < qh ∧ qw / qh = 9 / 16 ∧
    |(((calculate_crop_region w h c).2.2.1 - (calculate_crop_region w h c).1 : ℤ) : ℚ) - qw| < 1 ∧
    |(((calculate_crop_region w h c).2.2.2 - (calculate_crop_region w h c).2.1 : ℤ) : ℚ) - qh| < 1

/-- On nonnegative values Python `int()` agrees with the floor. -/
theorem pyInt_eq_floor (q : ℚ) (hq : 0 ≤ q) : pyInt q = ⌊q⌋ := by
  rw [pyInt, Rat.floor_def]
  exact Int.tdiv_eq_ediv (Rat.num_nonneg.mpr hq) (Int.ofNat_nonneg q.den)

/-- Python `int()` of an integer value is that integer. -/
theorem pyInt_intCast (n : ℤ) : pyInt (n : ℚ) = n := by
  simp [pyInt]

/-- C1: the code at the failing input.  main.py (lines 101-106) constructs a
single `FaceTrackingCropper` for the whole batch, so the tracker state flows
from one `process_video` call into the next.  After processing a one-frame
video whose detector reports center `(100, 100)`, the next video's
first-frame fallback (no detection) returns the stale `(100, 100)` instead of
the fresh-state frame center `(320, 240)` that the claim requires. -/
theorem stale_tracker_state_across_videos :
    (get_face_center
        (process_video_tracker ⟨4/5, none, none⟩ ⟨640, 480, [some (100, 100)]⟩)
        640 480 none).1 = (100, 100) ∧
    (get_face_center ⟨4/5, none, none⟩ 640 480 none).1 = (320, 240) := by
  constructor
  · simp only [process_video_tracker, processFramesState, get_face_center, List.foldl]
    norm_num [pyInt]
  · rfl

/-- C4 counterexample: in track_n_merge.py's `process_video`, an exception
raised while processing the first frame propagates without either
`cap.release()` or `out.release()` running — the claim's exception exit path
does not release the handles. -/
theorem tnm_loop_exception_skips_release :
    (runLoopTnM [FrameEvent.raise]).capReleased = false ∧
    (runLoopTnM [FrameEvent.raise]).outReleased = false ∧
    (runLoopTnM [FrameEvent.raise]).exnPropagated = true :=
  ⟨rfl, rfl, rfl⟩

/-- C4 (amended): face_tracker.py's `process_video` releases both handles on
every exit path (its loop runs under try/except/finally); track_n_merge.py's
`process_video` releases both handles on normal completion and on the
end-of-stream break, i.e. whenever no exception is raised during frame
processing. -/
theorem loop_release_amended (evs : List FrameEvent) :
    ((runLoopFT evs).capReleased = true ∧ (runLoopFT evs).outReleased = true) ∧
    (FrameEvent.raise ∉ evs → runLoopTnM evs = ⟨true, true, false⟩) := by
  induction evs with
  | nil => exact ⟨⟨rfl, rfl⟩, fun _ => rfl⟩
  | cons e rest ih =>
    cases e with
    | ok => exact ⟨ih.1, fun hm => ih.2 (fun hr => hm (List.mem_cons_of_mem _ hr))⟩
    | raise => exact ⟨⟨rfl, rfl⟩, fun hm => absurd (List.mem_cons_self _ _) hm⟩

/-- Witness for the amended C4 theorem at a concrete two-frame run with no
exception. -/
theorem loop_release_amended_witness :
    FrameEvent.raise ∉ [FrameEvent.ok, FrameEvent.ok] ∧
    runLoopTnM [FrameEvent.ok, FrameEvent.ok] = ⟨true, true, false⟩ :=
  ⟨by decide, (loop_release_amended [FrameEvent.ok, FrameEvent.ok]).2 (by decide)⟩

/-- C3 counterexample: the single ffmpeg invocation writes directly to the
final output path (track_n_merge.py line 140), so a mux failure that aborts
mid-transcode reports failure yet leaves a partially written file at the
output path — the claim's "no file exists at the output path" on failure is
false. -/
theorem mux_failure_leaves_truncated_output :
    (muxStep (MuxOutcome.failed "filter error" true)).returnedTrue = false ∧
    (muxStep (MuxOutcome.failed "filter error" true)).output = OutState.truncated :=
  ⟨rfl, rfl⟩

/-- C3 (amended): if `process_video`'s mux stage reports success a complete
muxed output exists at the target path; the intermediate silent video always
lives in a temp location and is deleted in every case; and failure is
reported exactly when the transcoder failed — but on failure the transcoder
may itself have left a partially written file at the final output path,
because the code hands ffmpeg the final path directly rather than staging
through a temp name. -/
theorem mux_all_or_nothing_amended (o : MuxOutcome) :
    ((muxStep o).returnedTrue = true → (muxStep o).output = OutState.complete) ∧
    (muxStep o).tempExists = false ∧
    ((muxStep o).returnedTrue = false → o ≠ MuxOutcome.success) := by
  cases o with
  | success => exact ⟨fun _ => rfl, rfl, fun hf => absurd hf (by simp [muxStep])⟩
  | failed s wr => exact ⟨fun ht => absurd ht (by simp [muxStep]), rfl, fun _ => by simp⟩

/-- Witness for the amended C3 theorem at concrete mux outcomes. -/
theorem mux_all_or_nothing_amended_witness :
    (muxStep MuxOutcome.success).output = OutState.complete ∧
    (muxStep (MuxOutcome.failed "boom" false)).tempExists = false ∧
    MuxOutcome.failed "boom" false ≠ MuxOutcome.success :=
  ⟨(mux_all_or_nothing_amended MuxOutcome.success).1 rfl,
   (mux_all_or_nothing_amended (MuxOutcome.failed "boom" false)).2.1,
   (mux_all_or_nothing_amended (MuxOutcome.failed "boom" false)).2.2 rfl⟩

/-- C6: the `finally` block of the mux stage (track_n_merge.py lines 150-153)
deletes the intermediate silent video both on transcoder success and on any
nonzero exit. -/
theorem mux_temp_always_deleted (o : MuxOutcome) :
    (muxStep o).tempExists = false := by
  cases o <;> rfl

/-- C9: on nonzero transcoder exit, the mux stage reports failure to its
caller, surfaces the process's stderr in its diagnostic output, and the
transcoder was invoked exactly once (no retry). -/
theorem mux_error_surfaced (s : String) (wr : Bool) :
    (muxStep (MuxOutcome.failed s wr)).returnedTrue = false ∧
    ("stderr: " ++ s) ∈ (muxStep (MuxOutcome.failed s wr)).printed ∧
    (muxStep (MuxOutcome.failed s wr)).transcoderCalls = 1 := by
  refine ⟨rfl, ?_, rfl⟩
  simp [muxStep]

/-- C7: once the tracker state holds a last center, `get_face_center` on a
frame with no detection returns exactly that stored center and leaves the
whole state (last center and smoothing factor) unchanged
(track_n_merge.py lines 40-41). -/
theorem fallback_persistence (st : TrackerState) (w h : ℕ) (lx ly : ℤ)
    (hx : st.last_center_x = some lx) (hy : st.last_center_y = some ly) :
    get_face_center st w h none = ((lx, ly), st) := by
  cases st with
  | mk sf x y =>
    cases hx
    cases hy
    rfl

/-- Witness for C7 at a concrete state with stored center (100, 100). -/
theorem fallback_persistence_witness :
    get_face_center ⟨4/5, some 100, some 100⟩ 640 480 none =
      ((100, 100), ⟨4/5, some 100, some 100⟩) :=
  fallback_persistence ⟨4/5, some 100, some 100⟩ 640 480 100 100 rfl rfl

/-- C8: with no prior tracker state and no detection, `get_face_center`
returns exactly the frame's geometric center `(w // 2, h // 2)` and leaves
the state untouched (track_n_merge.py lines 43-44). -/
theorem fallback_default_center (sf : ℚ) (w h : ℕ) :
    get_face_center ⟨sf, none, none⟩ w h none =
      (((w : ℤ) / 2, (h : ℤ) / 2), ⟨sf, none, none⟩) := rfl

/-- The crop width is the first `cropDims` component, for every center. -/
theorem crop_width_eq (w h : ℕ) (c : ℤ × ℤ) :
    (calculate_crop_region w h c).2.2.1 - (calculate_crop_region w h c).1
      = ((cropDims w h).1 : ℤ) := by
  simp [calculate_crop_region]

/-- The crop height is the second `cropDims` component, for every center. -/
theorem crop_height_eq (w h : ℕ) (c : ℤ × ℤ) :
    (calculate_crop_region w h c).2.2.2 - (calculate_crop_region w h c).2.1
      = ((cropDims w h).2 : ℤ) := by
  simp [calculate_crop_region]

/-- For `w ≥ 1` and `h ≥ 2` both crop dimensions are at least one pixel and
fit in the frame. -/
theorem cropDims_bounds (w h : ℕ) (hw : 1 ≤ w) (hh : 2 ≤ h) :
    1 ≤ (cropDims w h).1 ∧ (cropDims w h).1 ≤ w ∧
    1 ≤ (cropDims w h).2 ∧ (cropDims w h).2 ≤ h := by
  unfold cropDims
  split <;> dsimp only <;> omega

/-- The crop dimensions realize the 9:16 target aspect ratio up to strictly
less than one pixel of rounding on each axis: one axis is exact and the other
is the floor of the exact value. -/
theorem cropDims_aspect (w h : ℕ) (hw : 1 ≤ w) (hh : 1 ≤ h) :
    ∃ qw qh : ℚ, 0 < qh ∧ qw / qh = 9 / 16 ∧
      |((cropDims w h).1 : ℚ) - qw| < 1 ∧ |((cropDims w h).2 : ℚ) - qh| < 1 := by
  unfold cropDims
  split
  · -- width binds: cw = w exactly, ch = ⌊16·w/9⌋
    have hw0 : (0 : ℚ) < (w : ℚ) := by exact_mod_cast Nat.lt_of_lt_of_le Nat.zero_lt_one hw
    have h169 : (0 : ℚ) < 16 * (w : ℚ) / 9 := by linarith
    refine ⟨(w : ℚ), 16 * (w : ℚ) / 9, h169, ?_, by simp, ?_⟩
    · rw [div_eq_div_iff (ne_of_gt h169) (by norm_num : (16 : ℚ) ≠ 0)]
      ring
    · have h1 : 9 * (16 * w / 9) ≤ 16 * w := by omega
      have h2 : 16 * w < 9 * (16 * w / 9) + 9 := by omega
      have h1q : (9 : ℚ) * ((16 * w / 9 : ℕ) : ℚ) ≤ 16 * (w : ℚ) := by exact_mod_cast h1
      have h2q : 16 * (w : ℚ) < 9 * ((16 * w / 9 : ℕ) : ℚ) + 9 := by exact_mod_cast h2
      rw [abs_lt]
      constructor <;> dsimp only <;> linarith
  · -- height binds: ch = h exactly, cw = ⌊9·h/16⌋
    have hh0 : (0 : ℚ) < (h : ℚ) := by exact_mod_cast Nat.lt_of_lt_of_le Nat.zero_lt_one hh
    refine ⟨9 * (h : ℚ) / 16, (h : ℚ), hh0, ?_, ?_, by simp⟩
    · rw [div_eq_div_iff (ne_of_gt hh0) (by norm_num : (16 : ℚ) ≠ 0)]
      ring
    · have h1 : 16 * (9 * h / 16) ≤ 9 * h := by omega
      have h2 : 9 * h < 16 * (9 * h / 16) + 16 := by omega
      have h1q : (16 : ℚ) * ((9 * h / 16 : ℕ) : ℚ) ≤ 9 * (h : ℚ) := by exact_mod_cast h1
      have h2q : 9 * (h : ℚ) < 16 * ((9 * h / 16 : ℕ) : ℚ) + 16 := by exact_mod_cast h2
      rw [abs_lt]
      constructor <;> dsimp only <;> linarith

/-- C2 counterexample: at `w = 1`, `h = 1` (within the claim's stated domain
`w ≥ 1`, `h ≥ 1`) the code computes crop width `int(1 · 9/16) = 0`, so the
returned rectangle is degenerate: `x1 = x2 = 0`, violating `x1 < x2`. -/
theorem crop_region_degenerate_one_by_one :
    calculate_crop_region 1 1 (0, 0) = (0, 0, 0, 1) ∧
    ¬ ((calculate_crop_region 1 1 (0, 0)).1 < (calculate_crop_region 1 1 (0, 0)).2.2.1) := by
  constructor <;> decide

/-- C2 (amended): for all frame dimensions with `w ≥ 1` and `h ≥ 2` (so that
the computed crop width `int(h · 9/16)` is at least one pixel; `h = 1` makes
it zero) and every face center, `calculate_crop_region` returns a rectangle
with `0 ≤ x1 < x2 ≤ w`, `0 ≤ y1 < y2 ≤ h` whose width/height ratio is 9/16
within one pixel of rounding; in particular at any edge or corner center the
rectangle lies fully inside the frame. -/
theorem crop_region_bounds_and_aspect (w h : ℕ) (c : ℤ × ℤ)
    (hw : 1 ≤ w) (hh : 2 ≤ h) : CropRectSpec w h c := by
  obtain ⟨h1, h2, h3, h4⟩ := cropDims_bounds w h hw hh
  obtain ⟨qw, qh, hq0, hqr, hqw, hqh⟩ := cropDims_aspect w h hw (by omega)
  have hcw1 : (1 : ℤ) ≤ ((cropDims w h).1 : ℤ) := by exact_mod_cast h1
  have hcww : ((cropDims w h).1 : ℤ) ≤ (w : ℤ) := by exact_mod_cast h2
  have hch1 : (1 : ℤ) ≤ ((cropDims w h).2 : ℤ) := by exact_mod_cast h3
  have hchh : ((cropDims w h).2 : ℤ) ≤ (h : ℤ) := by exact_mod_cast h4
  have ew := crop_width_eq w h c
  have eh := crop_height_eq w h c
  unfold CropRectSpec
  refine ⟨?_, ?_, ?_, ?_, ?_, ?_, qw, qh, hq0, hqr, ?_, ?_⟩
  · simp only [calculate_crop_region]; omega
  · simp only [calculate_crop_region]; omega
  · simp only [calculate_crop_region]; omega
  · simp only [calculate_crop_region]; omega
  · simp only [calculate_crop_region]; omega
  · simp only [calculate_crop_region]; omega
  · rw [ew]; exact_mod_cast hqw
  · rw [eh]; exact_mod_cast hqh

/-- Witness for the amended C2 theorem at the claim's own example:
`w = 1920`, `h = 1080`, corner center `(0, 0)`. -/
theorem crop_region_bounds_and_aspect_witness :
    (1 ≤ 1920 ∧ 2 ≤ 1080) ∧ CropRectSpec 1920 1080 (0, 0) :=
  ⟨⟨by norm_num, by norm_num⟩,
   crop_region_bounds_and_aspect 1920 1080 (0, 0) (by norm_num) (by norm_num)⟩

/-- C10: the width and height of the rectangle returned by
`calculate_crop_region` are the same for all face centers — they depend only
on the frame dimensions (and the fixed 9:16 aspect), and equal `cropDims`. -/
theorem crop_dims_center_independent (w h : ℕ) (c c' : ℤ × ℤ) :
    ((calculate_crop_region w h c).2.2.1 - (calculate_crop_region w h c).1
      = (calculate_crop_region w h c').2.2.1 - (calculate_crop_region w h c').1) ∧
    ((calculate_crop_region w h c).2.2.2 - (calculate_crop_region w h c).2.1
      = (calculate_crop_region w h c').2.2.2 - (calculate_crop_region w h c').2.1) ∧
    ((calculate_crop_region w h c).2.2.1 - (calculate_crop_region w h c).1
      = ((cropDims w h).1 : ℤ)) ∧
    ((calculate_crop_region w h c).2.2.2 - (calculate_crop_region w h c).2.1
      = ((cropDims w h).2 : ℤ)) := by
  simp [calculate_crop_region]

/-- One C5 frame: with stored center `(l, l)` and smoothing `4/5`, the blend
`int(0.8 · l + 0.2 · 100)` equals the integer `(4·l + 100) / 5` (floor), which
becomes both the reported center and the new stored center. -/
theorem blend_step (l : ℤ) (hl : 0 ≤ l) :
    get_face_center ⟨4/5, some l, some l⟩ 640 480 (some (100, 100)) =
      (((4 * l + 100) / 5, (4 * l + 100) / 5),
        ⟨4/5, some ((4 * l + 100) / 5), some ((4 * l + 100) / 5)⟩) := by
  have hlq : (0 : ℚ) ≤ (l : ℚ) := by exact_mod_cast hl
  have key : pyInt ((4/5 : ℚ) * (l : ℚ) + (1 - 4/5) * ((100 : ℤ) : ℚ))
      = (4 * l + 100) / 5 := by
    have e : ((4/5 : ℚ) * (l : ℚ) + (1 - 4/5) * ((100 : ℤ) : ℚ))
        = ((4 * l + 100 : ℤ) : ℚ) / ((5 : ℕ) : ℚ) := by
      push_cast
      ring
    have h0 : (0 : ℚ) ≤ (4/5 : ℚ) * (l : ℚ) + (1 - 4/5) * ((100 : ℤ) : ℚ) := by
      push_cast
      linarith
    rw [pyInt_eq_floor _ h0, e, Rat.floor_intCast_div_natCast]
    norm_num
  simp only [get_face_center]
  rw [key]

/-- The C5 coordinate sequence stays between its start 0 and the raw target
100. -/
theorem gSeq_bounds (n : ℕ) : 0 ≤ gSeq n ∧ gSeq n ≤ 100 := by
  induction n with
  | zero => constructor <;> decide
  | succ n ih =>
    unfold gSeq
    omega

/-- The C5 scenario state after `n` frames stores `(gSeq n, gSeq n)`. -/
theorem smoothState_eq (n : ℕ) :
    smoothState n = ⟨4/5, some (gSeq n), some (gSeq n)⟩ := by
  induction n with
  | zero => rfl
  | succ n ih =>
    show (get_face_center (smoothState n) 640 480 (some (100, 100))).2 = _
    rw [ih, blend_step (gSeq n) (gSeq_bounds n).1]
    rfl

/-- The C5 output on frame `n` is `(gSeq (n+1), gSeq (n+1))`. -/
theorem smoothOut_eq (n : ℕ) : smoothOut n = (gSeq (n + 1), gSeq (n + 1)) := by
  rw [smoothOut, smoothState_eq, blend_step (gSeq n) (gSeq_bounds n).1]
  rfl

/-- From frame 16 on, the truncated blend is pinned at its integer fixed
point 96. -/
theorem gSeq_converged (m : ℕ) : gSeq (17 + m) = 96 := by
  induction m with
  | zero => decide
  | succ m ih =>
    show (4 * gSeq (17 + m) + 100) / 5 = 96
    rw [ih]
    decide

/-- C5: feeding the constant raw detection `(100, 100)` with
`smoothing_factor = 0.8` from stored center `(0, 0)`: both coordinates agree;
the output is monotone nondecreasing toward 100 and never overshoots it; it
is within 4 pixels of 100 from frame 16 on (the `int()` truncation pins the
blend at the fixed point 96, so 4 is the small epsilon actually reached); and
the distance to 100 decays with ratio 0.8 per frame up to the at-most-one
pixel lost to truncation, per `new = 0.8 · prev + 0.2 · raw` on each axis
independently. -/
theorem smoothing_convergence :
    (∀ n, (smoothOut n).1 = (smoothOut n).2) ∧
    (∀ n, (smoothOut n).1 ≤ (smoothOut (n + 1)).1) ∧
    (∀ n, (smoothOut n).1 ≤ 100) ∧
    (∀ n, 16 ≤ n → 100 - (smoothOut n).1 ≤ 4) ∧
    (∀ n, 5 * (100 - (smoothOut (n + 1)).1) ≤ 4 * (100 - (smoothOut n).1) + 4) := by
  refine ⟨fun n => ?_, fun n => ?_, fun n => ?_, fun n hn => ?_, fun n => ?_⟩
  · rw [smoothOut_eq]
  · rw [smoothOut_eq, smoothOut_eq]
    have h1 := gSeq_bounds (n + 1)
    show gSeq (n + 1) ≤ (4 * gSeq (n + 1) + 100) / 5
    omega
  · rw [smoothOut_eq]
    exact (gSeq_bounds (n + 1)).2
  · rw [smoothOut_eq]
    obtain ⟨m, rfl⟩ : ∃ m, n = 16 + m := ⟨n - 16, by omega⟩
    have := gSeq_converged m
    have e : 16 + m + 1 = 17 + m := by omega
    rw [e, this]
    norm_num
  · rw [smoothOut_eq, smoothOut_eq]
    have h1 := gSeq_bounds (n + 1)
    show 5 * (100 - (4 * gSeq (n + 1) + 100) / 5) ≤ 4 * (100 - gSeq (n + 1)) + 4
    omega

/-- Witness for C5 at concrete frames: frame 16 is within 4 of 100, and
frame 0 does not overshoot. -/
theorem smoothing_convergence_witness :
    (16 ≤ 16 ∧ 100 - (smoothOut 16).1 ≤ 4) ∧ (smoothOut 0).1 ≤ 100 :=
  ⟨⟨le_refl 16, smoothing_convergence.2.2.2.1 16 (le_refl 16)⟩,
    smoothing_convergence.2.2.1 0⟩

end Video2Reel
